import Mathlib

/-!
Verification development for the real-time chat subsystem of the
crafthindustan.in backend (Express + socket.io server, `chat` routes).

The embedding models the persistent store (Conversation and Message
collections), the ephemeral gateway state (presence map, room membership)
and the request handlers:

* the socket middleware handlers (`conversation:join`, `conversation:leave`,
  `message:send`, `disconnect`) from the server entry file;
* the REST chat routes (`POST /conversations`,
  `GET /conversations/:conversationId/messages`,
  `POST /conversations/:conversationId/messages`).

Ids (users, conversations, posts, sockets) are strings; the JavaScript
falsy check on a string parameter is modelled as comparison with `""`.
Timestamps are naturals drawn from a logical clock held in the state:
every persistence call (document create or save) happens at a fresh tick,
matching the cooperative-concurrency model in which each store write is a
separate suspension point.  Mongoose `timestamps: true` behaviour is
modelled by stamping `createdAt`/`updatedAt` at create time and bumping
`updatedAt` at each save.
-/

namespace Chat

/-- Denormalized last-message snapshot stored on a Conversation document. -/
structure LastMessage where
  content : String
  sender : String
  createdAt : Nat
deriving Repr, DecidableEq

/-- Conversation document (models/Conversation.js): two participant
references, an optional related post, the denormalized `lastMessage`
snapshot, and mongoose timestamps. -/
structure Conversation where
  id : String
  participants : List String
  post : Option String
  lastMessage : Option LastMessage
  createdAt : Nat
  updatedAt : Nat
deriving Repr, DecidableEq

/-- Message document: conversation and sender references, trimmed content,
`readBy` initialised to the sender, and a creation timestamp. -/
structure Message where
  id : Nat
  conversation : String
  sender : String
  content : String
  readBy : List String
  createdAt : Nat
deriving Repr, DecidableEq

/-- The whole observable state: the two persisted collections, the
presence map (`onlineUsers : userId -> socketId`), socket.io room
membership (pairs of socket id and room key), the user and post
collections (external collaborators, only membership is consulted), and
the logical clock. -/
structure ChatState where
  conversations : List Conversation
  messages : List Message
  onlineUsers : List (String × String)
  rooms : List (String × String)
  users : List String
  posts : List String
  clock : Nat
deriving Repr, DecidableEq

/-- Target of an emitted socket.io event: `socket.emit` reaches one socket,
`io.to(room).emit` reaches every socket joined to the room. -/
inductive Scope where
  | toSocket (sid : String)
  | toRoom (room : String)
deriving Repr, DecidableEq

/-- Payload of an emitted event, one constructor per event name. -/
inductive Payload where
  | ready (userId : String)
  | errorMsg (text : String)
  | newMessage (conversationId : String) (message : Message)
  | convUpdate (conversationId : String) (lastMessage : Option LastMessage)
      (updatedAt : Nat)
deriving Repr, DecidableEq

/-- An emitted event: a scope together with a payload. -/
structure Event where
  scope : Scope
  payload : Payload
deriving Repr, DecidableEq

/-- Response of `POST /conversations`. -/
structure ConvResult where
  status : Nat
  conversation : Option Conversation
deriving Repr, DecidableEq

/-- Response of `POST /conversations/:conversationId/messages`. -/
structure SendResult where
  status : Nat
  message : Option Message
deriving Repr, DecidableEq

/-- Response of `GET /conversations/:conversationId/messages`. -/
structure HistoryResult where
  status : Nat
  messages : Option (List Message)
deriving Repr, DecidableEq

/-- Model of JavaScript `String.prototype.trim()`: strip leading and
trailing whitespace. -/
def jsTrim (s : String) : String :=
  ⟨((s.data.dropWhile Char.isWhitespace).reverse.dropWhile Char.isWhitespace).reverse⟩

/-- Hexadecimal digit test, as used by ObjectId validation. -/
def isHexDigit (c : Char) : Bool :=
  c.isDigit || (65 ≤ c.toNat && c.toNat ≤ 70) || (97 ≤ c.toNat && c.toNat ≤ 102)

/-- Model of `mongoose.Types.ObjectId.isValid`: a 24-character hex string
or any 12-character string. -/
def isValidObjectId (s : String) : Bool :=
  (s.length == 24 && s.toList.all isHexDigit) || s.length == 12

/-- Model of `Conversation.findById(conversationId)`: first document whose
id matches. -/
def findConversation (s : ChatState) (cid : String) : Option Conversation :=
  s.conversations.find? (fun c => c.id == cid)

/-- Model of `conversation.participants.some((p) => p.toString() === userId)`. -/
def isParticipant (conv : Conversation) (userId : String) : Bool :=
  conv.participants.any (fun p => p == userId)

/-- Shared persistence step of both send paths:
`Message.create` with the trimmed content and `readBy` initialised to the
sender, followed by assigning `conversation.lastMessage` from the same
trimmed content and saving the conversation.
The message is created at the current tick and the save bumps the
conversation `updatedAt` at the next tick.  `sendUpd` is the summary
update applied to the saved conversation document. -/
def sendUpd (uid cid content : String) (clock : Nat) :
    Conversation → Conversation := fun c =>
  if c.id == cid then
    { c with
        lastMessage := some ⟨jsTrim content, uid, clock⟩
        updatedAt := clock + 1 }
  else c

/-- Shared persistence step, continued: the message document created at
the current tick, appended to the collection, with the summary update
applied to the conversation carrying the target id (document ids are
unique in a real store, so this is the saved document). -/
def persistSend (s : ChatState) (uid cid content : String) :
    ChatState × Message :=
  let msg : Message :=
    { id := s.messages.length
      conversation := cid
      sender := uid
      content := jsTrim content
      readBy := [uid]
      createdAt := s.clock }
  ({ s with
      messages := s.messages ++ [msg]
      conversations := s.conversations.map (sendUpd uid cid content s.clock)
      clock := s.clock + 2 }, msg)

/-- The two room broadcasts fired after a successful send:
`io.to(conversationId).emit('message:new', ...)` and
`io.to(conversationId).emit('conversation:update', ...)`. -/
def broadcastEvents (cid : String) (msg : Message) (conv : Conversation) :
    List Event :=
  [⟨Scope.toRoom cid, Payload.newMessage cid msg⟩,
   ⟨Scope.toRoom cid, Payload.convUpdate cid conv.lastMessage conv.updatedAt⟩]

/-- Socket `conversation:join` handler: `if (conversationId) socket.join(conversationId)`.
socket.io rooms are sets, so joining is idempotent. -/
def sockJoin (s : ChatState) (sid cid : String) : ChatState :=
  if cid = "" then s
  else if (sid, cid) ∈ s.rooms then s
  else { s with rooms := (sid, cid) :: s.rooms }

/-- Socket `conversation:leave` handler: `if (conversationId) socket.leave(conversationId)`. -/
def sockLeave (s : ChatState) (sid cid : String) : ChatState :=
  if cid = "" then s
  else { s with rooms := s.rooms.filter (fun e => !(e == (sid, cid))) }

/-- Connection handler prologue: `if (userId) onlineUsers.set(userId, socket.id)`
then `socket.emit('connection:ready', {userId})`.  `Map.set` replaces any
previous entry for the same user (last writer wins). -/
def sockConnect (s : ChatState) (sid uid : String) : ChatState × List Event :=
  let s1 :=
    if uid = "" then s
    else { s with
            onlineUsers := (uid, sid) :: s.onlineUsers.filter (fun e => !(e.1 == uid)) }
  (s1, [⟨Scope.toSocket sid, Payload.ready uid⟩])

/-- Disconnect handler: `if (userId) onlineUsers.delete(userId)`; socket.io
additionally drops the socket from all rooms implicitly. -/
def sockDisconnect (s : ChatState) (sid uid : String) : ChatState :=
  let users' :=
    if uid = "" then s.onlineUsers
    else s.onlineUsers.filter (fun e => !(e.1 == uid))
  { s with
      onlineUsers := users'
      rooms := s.rooms.filter (fun e => !(e.1 == sid)) }

/-- Presence lookup: `onlineUsers.get(userId)`. -/
def lookupPresence (s : ChatState) (uid : String) : Option String :=
  (s.onlineUsers.find? (fun e => e.1 == uid)).map (fun e => e.2)

/-- Socket `message:send` handler.  Arguments: the sender's socket id,
the sender's resolved user id (`socket.user._id`), and the destructured
`{conversationId, content}` payload.  Returns the new state and the
events emitted by this handler invocation. -/
def sockMessageSend (s : ChatState) (sid uid cid content : String) :
    ChatState × List Event :=
  if cid == "" || content == "" || jsTrim content == "" then (s, [])
  else
    match findConversation s cid with
    | none =>
        (s, [⟨Scope.toSocket sid, Payload.errorMsg "Conversation not found"⟩])
    | some conv =>
        if !(isParticipant conv uid) then
          (s, [⟨Scope.toSocket sid,
                Payload.errorMsg "Not authorized for this conversation"⟩])
        else
          let (s1, msg) := persistSend s uid cid content
          let conv1 : Conversation :=
            { conv with
                lastMessage := some ⟨jsTrim content, uid, msg.createdAt⟩
                updatedAt := s.clock + 1 }
          (s1, broadcastEvents cid msg conv1)

/-- REST `POST /conversations/:conversationId/messages` handler.
`ioAvail` models `req.app.get('io')` being registered; when it is absent
the broadcast block is skipped.  Returns new state, HTTP result and
emitted events. -/
def restSendMessage (s : ChatState) (ioAvail : Bool) (uid cid content : String) :
    ChatState × SendResult × List Event :=
  if content == "" || jsTrim content == "" then (s, ⟨400, none⟩, [])
  else if !(isValidObjectId cid) then (s, ⟨400, none⟩, [])
  else
    match findConversation s cid with
    | none => (s, ⟨404, none⟩, [])
    | some conv =>
        if !(isParticipant conv uid) then (s, ⟨403, none⟩, [])
        else
          let (s1, msg) := persistSend s uid cid content
          let conv1 : Conversation :=
            { conv with
                lastMessage := some ⟨jsTrim content, uid, msg.createdAt⟩
                updatedAt := s.clock + 1 }
          let evs := if ioAvail then broadcastEvents cid msg conv1 else []
          (s1, ⟨201, some msg⟩, evs)

/-- Fresh 12-character conversation id for the given creation tick. -/
def freshConvId (n : Nat) : String :=
  let d := toString n
  "cv" ++ ⟨List.replicate (10 - d.length) '0'⟩ ++ d

/-- Stable insertion of a message into a list sorted ascending by
`createdAt`: an incoming message goes after all already-placed messages
with a smaller-or-equal timestamp. -/
def insertByCreated (m : Message) : List Message → List Message
  | [] => [m]
  | x :: xs =>
      if m.createdAt ≤ x.createdAt then m :: x :: xs
      else x :: insertByCreated m xs

/-- Model of `.sort({createdAt: 1})` on a message query result: a stable
sort ascending by `createdAt` (ties keep insertion order). -/
def sortByCreated : List Message → List Message
  | [] => []
  | m :: rest => insertByCreated m (sortByCreated rest)

/-- REST `GET /conversations/:conversationId/messages` handler.  Performs
no store mutation, so only the HTTP result is returned. -/
def restGetMessages (s : ChatState) (uid cid : String) : HistoryResult :=
  if !(isValidObjectId cid) then ⟨400, none⟩
  else
    match findConversation s cid with
    | none => ⟨404, none⟩
    | some conv =>
        if !(isParticipant conv uid) then ⟨403, none⟩
        else
          ⟨200, some (sortByCreated
            (s.messages.filter (fun m => m.conversation == cid)))⟩

/-- Resolution of the optional `postId` of a conversation-creation
request: kept only when it is a valid id of an existing post. -/
def resolvePost (s : ChatState) (postId : Option String) : Option String :=
  match postId with
  | some p => if isValidObjectId p && s.posts.contains p then some p else none
  | none => none

/-- The conversation document a successful creation inserts: caller
listed first, optional resolved post, empty summary, both timestamps at
the current tick. -/
def createdConv (s : ChatState) (uid pid : String)
    (postId : Option String) : Conversation :=
  { id := freshConvId s.clock
    participants := [uid, pid]
    post := resolvePost s postId
    lastMessage := none
    createdAt := s.clock
    updatedAt := s.clock }

/-- REST `POST /conversations` handler (find-or-create by participant
pair).  `uid` is the authenticated caller (`req.user._id`), `pid` the
requested `participantId`, `postId` the optional related post.  The
`$all` lookup matches any conversation whose participant array contains
both ids; when nothing matches, a new conversation is created with the
caller listed first.  A fresh id is derived from the clock tick; like a
real ObjectId it is 12 characters long, so it passes id validation. -/
def createConversation (s : ChatState) (uid pid : String)
    (postId : Option String) : ChatState × ConvResult :=
  if pid == "" || !(isValidObjectId pid) then (s, ⟨400, none⟩)
  else if pid == uid then (s, ⟨400, none⟩)
  else if !(s.users.contains pid) then (s, ⟨404, none⟩)
  else
    match s.conversations.find?
        (fun c => c.participants.contains uid && c.participants.contains pid) with
    | none =>
        ({ s with conversations := s.conversations ++ [createdConv s uid pid postId]
                  clock := s.clock + 1 },
         ⟨200, some (createdConv s uid pid postId)⟩)
    | some conv =>
        if (resolvePost s postId).isSome && conv.post == none then
          ({ s with
              conversations := s.conversations.map
                (fun c =>
                  if c.id == conv.id then
                    { c with post := resolvePost s postId, updatedAt := s.clock }
                  else c)
              clock := s.clock + 1 },
           ⟨200, some { conv with post := resolvePost s postId, updatedAt := s.clock }⟩)
        else (s, ⟨200, some conv⟩)

/-- Whether a socket receives a given event: directly addressed events
reach exactly that socket, room broadcasts reach the sockets joined to
the room at broadcast time. -/
def deliveredTo (rooms : List (String × String)) (ev : Event) (sid : String) : Bool :=
  match ev.scope with
  | Scope.toSocket t => t == sid
  | Scope.toRoom r => rooms.contains (sid, r)

/-- Is this event a `message:new` broadcast? -/
def isNewMessageEvent (ev : Event) : Bool :=
  match ev.payload with
  | Payload.newMessage _ _ => true
  | _ => false

/-- Is this event a `conversation:update` broadcast? -/
def isConvUpdateEvent (ev : Event) : Bool :=
  match ev.payload with
  | Payload.convUpdate _ _ _ => true
  | _ => false

/-- Number of events among `evs` of the given kind delivered to socket `sid`. -/
def countDelivered (rooms : List (String × String)) (evs : List Event)
    (sid : String) (kind : Event → Bool) : Nat :=
  (evs.filter (fun ev => kind ev && deliveredTo rooms ev sid)).length

/-- One inbound event handled by the subsystem: each constructor is one
of the embedded request handlers. -/
inductive Op where
  | connect (sid uid : String)
  | join (sid cid : String)
  | leave (sid cid : String)
  | sockSend (sid uid cid content : String)
  | disconnect (sid uid : String)
  | create (uid pid : String) (postId : Option String)
  | restSend (ioAvail : Bool) (uid cid content : String)
deriving Repr, DecidableEq

/-- State transition of one operation (responses and events dropped). -/
def applyOp (s : ChatState) : Op → ChatState
  | Op.connect sid uid => (sockConnect s sid uid).1
  | Op.join sid cid => sockJoin s sid cid
  | Op.leave sid cid => sockLeave s sid cid
  | Op.sockSend sid uid cid content => (sockMessageSend s sid uid cid content).1
  | Op.disconnect sid uid => sockDisconnect s sid uid
  | Op.create uid pid postId => (createConversation s uid pid postId).1
  | Op.restSend ioAvail uid cid content => (restSendMessage s ioAvail uid cid content).1

/-- Boot state: empty collections and gateway state over given external
user and post collections. -/
def initState (users posts : List String) : ChatState :=
  { conversations := [], messages := [], onlineUsers := [], rooms := []
    users := users, posts := posts, clock := 0 }

/-- State reached by running a sequence of operations from boot. -/
def reach (users posts : List String) (ops : List Op) : ChatState :=
  ops.foldl applyOp (initState users posts)

/-- Two participant lists carrying the same set of user references. -/
def SameParticipantSet (l1 l2 : List String) : Prop :=
  ∀ x, x ∈ l1 ↔ x ∈ l2

/-- Invariant: no two distinct stored conversations share their
(unordered) participant set. -/
def PairUnique (s : ChatState) : Prop :=
  s.conversations.Pairwise
    (fun c1 c2 => ¬ SameParticipantSet c1.participants c2.participants)

/-- Invariant: the message collection is in strictly increasing
`createdAt` order (each create happens at a fresh tick), and the clock
dominates every stored timestamp. -/
def ClockSound (s : ChatState) : Prop :=
  s.messages.Pairwise (fun a b => a.createdAt < b.createdAt)
  ∧ (∀ m ∈ s.messages, m.createdAt < s.clock)
  ∧ (∀ c ∈ s.conversations, c.updatedAt < s.clock)

/-- Fixture conversation between users u1 and u2 (12-character id, as a
real ObjectId would be). -/
def exConv : Conversation :=
  { id := "c00000000001", participants := ["u1", "u2"], post := none
    lastMessage := none, createdAt := 0, updatedAt := 0 }

/-- Fixture state: one conversation, two sockets joined to its room. -/
def exState : ChatState :=
  { conversations := [exConv], messages := []
    onlineUsers := [("u1", "s1")]
    rooms := [("s1", "c00000000001"), ("s2", "c00000000001")]
    users := ["u1", "u2"], posts := [], clock := 1 }

/-- Trimming the empty string gives the empty string. -/
theorem jsTrim_empty : jsTrim "" = "" := by decide

/-- Projection: state after the shared persistence step, conversations. -/
theorem persistSend_conversations (s : ChatState) (uid cid content : String) :
    (persistSend s uid cid content).1.conversations
      = s.conversations.map (sendUpd uid cid content s.clock) := rfl

/-- Projection: state after the shared persistence step, messages. -/
theorem persistSend_messages (s : ChatState) (uid cid content : String) :
    (persistSend s uid cid content).1.messages
      = s.messages ++ [(persistSend s uid cid content).2] := rfl

/-- The message document created by the shared persistence step. -/
theorem persistSend_msg (s : ChatState) (uid cid content : String) :
    (persistSend s uid cid content).2
      = { id := s.messages.length, conversation := cid, sender := uid,
          content := jsTrim content, readBy := [uid], createdAt := s.clock } := rfl

/-- Projection: the persistence step leaves room membership alone. -/
theorem persistSend_rooms (s : ChatState) (uid cid content : String) :
    (persistSend s uid cid content).1.rooms = s.rooms := rfl

/-- Projection: the persistence step advances the clock by two ticks. -/
theorem persistSend_clock (s : ChatState) (uid cid content : String) :
    (persistSend s uid cid content).1.clock = s.clock + 2 := rfl

/-- The summary update never changes a conversation's id. -/
theorem sendUpd_id (uid cid content : String) (clock : Nat) (c : Conversation) :
    (sendUpd uid cid content clock c).id = c.id := by
  unfold sendUpd
  by_cases h : (c.id == cid) = true <;> simp [h]

/-- Lookup by id commutes with mapping an id-preserving update over the
collection. -/
theorem find?_map_preserving_id (l : List Conversation)
    (f : Conversation → Conversation) (hf : ∀ c, (f c).id = c.id)
    (cid : String) :
    (l.map f).find? (fun c => c.id == cid)
      = (l.find? (fun c => c.id == cid)).map f := by
  induction l with
  | nil => rfl
  | cons c rest ih =>
      by_cases h : (c.id == cid) = true
      · simp only [List.map_cons, List.find?_cons, hf c, h]
        rfl
      · have h' : (c.id == cid) = false := by simpa using h
        simp only [List.map_cons, List.find?_cons, hf c, h', ih]

/-- After the persistence step, looking the conversation up again yields
the summary-updated document. -/
theorem findConversation_persistSend (s : ChatState) (uid cid content : String)
    (conv : Conversation) (hfind : findConversation s cid = some conv) :
    findConversation (persistSend s uid cid content).1 cid =
      some (sendUpd uid cid content s.clock conv) := by
  unfold findConversation at hfind ⊢
  rw [persistSend_conversations,
      find?_map_preserving_id _ _ (sendUpd_id uid cid content s.clock), hfind]
  rfl

/-- Reduction of the socket send handler on its success path: all guards
pass, so the handler performs the shared persistence step and fires the
two room broadcasts. -/
theorem sockMessageSend_success (s : ChatState) (sid uid cid content : String)
    (conv : Conversation)
    (hcid : cid ≠ "") (hct : jsTrim content ≠ "")
    (hfind : findConversation s cid = some conv)
    (hpart : isParticipant conv uid = true) :
    sockMessageSend s sid uid cid content =
      ((persistSend s uid cid content).1,
       broadcastEvents cid (persistSend s uid cid content).2
         (sendUpd uid cid content s.clock conv)) := by
  have hc1 : (cid == "") = false := by simpa using hcid
  have hc3 : (jsTrim content == "") = false := by simpa using hct
  have hc2 : (content == "") = false := by
    by_cases h : content = ""
    · exact absurd (h ▸ jsTrim_empty) hct
    · simpa using h
  have hid : (conv.id == cid) = true := by
    have h0 := hfind
    unfold findConversation at h0
    have h1 := List.find?_some h0
    simpa using h1
  unfold sockMessageSend
  rw [hc1, hc2, hc3, hfind]
  simp [hpart, persistSend, broadcastEvents, sendUpd, hid]

/-- Reduction of the REST send handler on its success path: persistence
step, 201 with the created message, and the two room broadcasts exactly
when a gateway dispatch handle is registered. -/
theorem restSendMessage_success (s : ChatState) (ioAvail : Bool)
    (uid cid content : String) (conv : Conversation)
    (hct : jsTrim content ≠ "") (hval : isValidObjectId cid = true)
    (hfind : findConversation s cid = some conv)
    (hpart : isParticipant conv uid = true) :
    restSendMessage s ioAvail uid cid content =
      ((persistSend s uid cid content).1,
       ⟨201, some (persistSend s uid cid content).2⟩,
       if ioAvail then
         broadcastEvents cid (persistSend s uid cid content).2
           (sendUpd uid cid content s.clock conv)
       else []) := by
  have hc3 : (jsTrim content == "") = false := by simpa using hct
  have hc2 : (content == "") = false := by
    by_cases h : content = ""
    · exact absurd (h ▸ jsTrim_empty) hct
    · simpa using h
  have hid : (conv.id == cid) = true := by
    have h0 := hfind
    unfold findConversation at h0
    have h1 := List.find?_some h0
    simpa using h1
  unfold restSendMessage
  rw [hc2, hc3, hval, hfind]
  simp [hpart, persistSend, broadcastEvents, sendUpd, hid]

/-- Reduction of the socket send handler when the sender is not a
participant: one `message:error` to the sender, nothing else. -/
theorem sockMessageSend_nonparticipant (s : ChatState)
    (sid uid cid content : String) (conv : Conversation)
    (hcid : cid ≠ "") (hct : jsTrim content ≠ "")
    (hfind : findConversation s cid = some conv)
    (hnp : isParticipant conv uid = false) :
    sockMessageSend s sid uid cid content =
      (s, [⟨Scope.toSocket sid,
            Payload.errorMsg "Not authorized for this conversation"⟩]) := by
  have hc1 : (cid == "") = false := by simpa using hcid
  have hc3 : (jsTrim content == "") = false := by simpa using hct
  have hc2 : (content == "") = false := by
    by_cases h : content = ""
    · exact absurd (h ▸ jsTrim_empty) hct
    · simpa using h
  unfold sockMessageSend
  rw [hc1, hc2, hc3, hfind]
  simp [hnp]

/-- Reduction of the REST send handler when the sender is not a
participant: 403, no state change, no events. -/
theorem restSendMessage_nonparticipant (s : ChatState) (ioAvail : Bool)
    (uid cid content : String) (conv : Conversation)
    (hct : jsTrim content ≠ "") (hval : isValidObjectId cid = true)
    (hfind : findConversation s cid = some conv)
    (hnp : isParticipant conv uid = false) :
    restSendMessage s ioAvail uid cid content = (s, ⟨403, none⟩, []) := by
  have hc3 : (jsTrim content == "") = false := by simpa using hct
  have hc2 : (content == "") = false := by
    by_cases h : content = ""
    · exact absurd (h ▸ jsTrim_empty) hct
    · simpa using h
  unfold restSendMessage
  rw [hc2, hc3, hval, hfind]
  simp [hnp]

/-- Fixture user collection for reachability witnesses; the second user
id has ObjectId shape (12 characters). -/
def exUsers : List String := ["u1", "u2aaaaaaaaaa"]

/-- Fixture trace: create a conversation, then two sequential REST sends
into it.  The created conversation receives id `cv0000000000`. -/
def exOps : List Op :=
  [Op.create "u1" "u2aaaaaaaaaa" none,
   Op.restSend true "u1" "cv0000000000" "hello",
   Op.restSend true "u2aaaaaaaaaa" "cv0000000000" "world"]

/-- The conversation document reached by replaying `exOps`. -/
def exConv2 : Conversation :=
  { id := "cv0000000000", participants := ["u1", "u2aaaaaaaaaa"], post := none
    lastMessage := some ⟨"world", "u2aaaaaaaaaa", 3⟩, createdAt := 0, updatedAt := 4 }

/-- Fixture user id of ObjectId shape. -/
def exUserA : String := "useraaaaaaa1"

/-- Second fixture user id of ObjectId shape. -/
def exUserB : String := "userbbbbbbb2"

/-- Boot state populated with the two fixture users. -/
def exInit : ChatState := initState [exUserA, exUserB] []

/-- C9: a socket `message:send` whose conversationId is falsy, or whose
content is missing or blank after trimming, is rejected silently: the
handler emits no event at all (in particular no `message:error`) and the
state, store included, is unchanged. -/
theorem sockSend_blank_rejected_silently (s : ChatState)
    (sid uid cid content : String) (h : cid = "" ∨ jsTrim content = "") :
    sockMessageSend s sid uid cid content = (s, []) := by
  unfold sockMessageSend
  rcases h with h | h <;> simp [h]

/-- Witness for C9: blank content addressed to a real conversation is
dropped with no events and no state change. -/
theorem sockSend_blank_rejected_silently_witness :
    sockMessageSend exState "s1" "u1" "c00000000001" "   " = (exState, [])
      ∧ jsTrim "   " = "" :=
  ⟨sockSend_blank_rejected_silently exState "s1" "u1" "c00000000001" "   "
      (Or.inr (by decide)),
   by decide⟩

/-- C6: a `conversation:join` for any non-falsy conversation id is
accepted for any authenticated connection in any state: the socket is
added to the room keyed by that id, and nothing else changes.  The
statement quantifies over completely arbitrary states — no hypothesis
relates the joining user to the conversation's participants (or even
requires the conversation to exist), which is exactly the absence of a
server-side membership check. -/
theorem join_accepted_without_membership_check (s : ChatState)
    (sid cid : String) (h : cid ≠ "") :
    (sid, cid) ∈ (sockJoin s sid cid).rooms
      ∧ (sockJoin s sid cid).conversations = s.conversations
      ∧ (sockJoin s sid cid).messages = s.messages
      ∧ (sockJoin s sid cid).onlineUsers = s.onlineUsers
      ∧ (sockJoin s sid cid).clock = s.clock := by
  unfold sockJoin
  rw [if_neg h]
  by_cases hm : (sid, cid) ∈ s.rooms <;> simp [hm]

/-- Witness for C6: a socket of user u9 — participant of no conversation
at all — joins the room of the fixture conversation. -/
theorem join_accepted_without_membership_check_witness :
    ("s9", "c00000000001") ∈ (sockJoin exState "s9" "c00000000001").rooms
      ∧ (sockJoin exState "s9" "c00000000001").conversations
          = exState.conversations :=
  ⟨(join_accepted_without_membership_check exState "s9" "c00000000001"
      (by decide)).1,
   (join_accepted_without_membership_check exState "s9" "c00000000001"
      (by decide)).2.1⟩

/-- C7: disconnecting a connection removes the presence entry for the
connection's user — a subsequent presence lookup for that user yields no
live handle — and deletes no persisted data: the Conversation and
Message collections are untouched. -/
theorem disconnect_clears_presence_preserves_store (s : ChatState)
    (sid uid : String) (h : uid ≠ "") :
    lookupPresence (sockDisconnect s sid uid) uid = none
      ∧ (sockDisconnect s sid uid).conversations = s.conversations
      ∧ (sockDisconnect s sid uid).messages = s.messages := by
  refine ⟨?_, rfl, rfl⟩
  unfold lookupPresence sockDisconnect
  rw [if_neg h]
  have hnone : (s.onlineUsers.filter (fun e => !(e.1 == uid))).find?
      (fun e => e.1 == uid) = none := by
    apply List.find?_eq_none.mpr
    intro e he
    simp only [List.mem_filter] at he
    simpa using he.2
  rw [hnone]
  rfl

/-- Witness for C7: disconnecting u1's socket in the fixture state clears
u1's presence entry and leaves the store alone. -/
theorem disconnect_clears_presence_preserves_store_witness :
    lookupPresence (sockDisconnect exState "s1" "u1") "u1" = none
      ∧ (sockDisconnect exState "s1" "u1").conversations
          = exState.conversations :=
  ⟨(disconnect_clears_presence_preserves_store exState "s1" "u1" (by decide)).1,
   (disconnect_clears_presence_preserves_store exState "s1" "u1" (by decide)).2.1⟩

/-- A room broadcast pair delivers exactly one `message:new` and one
`conversation:update` to a socket joined to the room. -/
theorem countDelivered_broadcast_mem (rooms : List (String × String))
    (cid x : String) (msg : Message) (conv : Conversation)
    (hm : (x, cid) ∈ rooms) :
    countDelivered rooms (broadcastEvents cid msg conv) x isNewMessageEvent = 1
      ∧ countDelivered rooms (broadcastEvents cid msg conv) x
          isConvUpdateEvent = 1 := by
  constructor <;>
    simp [countDelivered, broadcastEvents, deliveredTo, isNewMessageEvent,
      isConvUpdateEvent, List.filter, hm]

/-- A room broadcast pair delivers nothing to a socket not joined to the
room. -/
theorem countDelivered_broadcast_not_mem (rooms : List (String × String))
    (cid x : String) (msg : Message) (conv : Conversation)
    (hm : (x, cid) ∉ rooms) :
    countDelivered rooms (broadcastEvents cid msg conv) x isNewMessageEvent = 0
      ∧ countDelivered rooms (broadcastEvents cid msg conv) x
          isConvUpdateEvent = 0 := by
  constructor <;>
    simp [countDelivered, broadcastEvents, deliveredTo, isNewMessageEvent,
      isConvUpdateEvent, List.filter, hm]

/-- C1: a send — socket `message:send` or REST POST — by an authenticated
sender who is not one of the conversation's participants fails with the
NotAParticipant outcome: the socket path emits a single `message:error`
to the sender's own socket and nothing else, the REST path answers 403
with no events, and in both cases the state (message collection,
conversation summaries, everything) is exactly the input state. -/
theorem nonparticipant_send_rejected (s : ChatState)
    (sid uid cid content : String) (ioAvail : Bool) (conv : Conversation)
    (hcid : cid ≠ "") (hct : jsTrim content ≠ "")
    (hval : isValidObjectId cid = true)
    (hfind : findConversation s cid = some conv)
    (hnp : isParticipant conv uid = false) :
    sockMessageSend s sid uid cid content =
        (s, [⟨Scope.toSocket sid,
              Payload.errorMsg "Not authorized for this conversation"⟩])
      ∧ restSendMessage s ioAvail uid cid content = (s, ⟨403, none⟩, []) :=
  ⟨sockMessageSend_nonparticipant s sid uid cid content conv hcid hct hfind hnp,
   restSendMessage_nonparticipant s ioAvail uid cid content conv hct hval hfind hnp⟩

/-- Witness for C1: user u3 is not a participant of the fixture
conversation; both paths reject without touching the state. -/
theorem nonparticipant_send_rejected_witness :
    sockMessageSend exState "s3" "u3" "c00000000001" "hello" =
        (exState, [⟨Scope.toSocket "s3",
          Payload.errorMsg "Not authorized for this conversation"⟩])
      ∧ restSendMessage exState true "u3" "c00000000001" "hello"
          = (exState, ⟨403, none⟩, []) :=
  nonparticipant_send_rejected exState "s3" "u3" "c00000000001" "hello" true exConv
    (by decide) (by decide) (by decide) (by decide) (by decide)

/-- C2: per successful send targeting conversation cid (socket path, and
REST path with the gateway dispatch handle that the server always
registers at startup), every connection joined to room cid receives
exactly one `message:new` and exactly one `conversation:update`, and
every connection not joined to the room receives neither. -/
theorem broadcast_once_per_room_member (s : ChatState)
    (sid uid cid content x : String) (conv : Conversation)
    (hcid : cid ≠ "") (hct : jsTrim content ≠ "")
    (hval : isValidObjectId cid = true)
    (hfind : findConversation s cid = some conv)
    (hpart : isParticipant conv uid = true) :
    ((x, cid) ∈ s.rooms →
        countDelivered s.rooms (sockMessageSend s sid uid cid content).2 x
            isNewMessageEvent = 1
        ∧ countDelivered s.rooms (sockMessageSend s sid uid cid content).2 x
            isConvUpdateEvent = 1
        ∧ countDelivered s.rooms (restSendMessage s true uid cid content).2.2 x
            isNewMessageEvent = 1
        ∧ countDelivered s.rooms (restSendMessage s true uid cid content).2.2 x
            isConvUpdateEvent = 1)
    ∧ ((x, cid) ∉ s.rooms →
        countDelivered s.rooms (sockMessageSend s sid uid cid content).2 x
            isNewMessageEvent = 0
        ∧ countDelivered s.rooms (sockMessageSend s sid uid cid content).2 x
            isConvUpdateEvent = 0
        ∧ countDelivered s.rooms (restSendMessage s true uid cid content).2.2 x
            isNewMessageEvent = 0
        ∧ countDelivered s.rooms (restSendMessage s true uid cid content).2.2 x
            isConvUpdateEvent = 0) := by
  rw [sockMessageSend_success s sid uid cid content conv hcid hct hfind hpart,
      restSendMessage_success s true uid cid content conv hct hval hfind hpart]
  constructor
  · intro hm
    have h1 := countDelivered_broadcast_mem s.rooms cid x
      (persistSend s uid cid content).2 (sendUpd uid cid content s.clock conv) hm
    exact ⟨h1.1, h1.2, h1.1, h1.2⟩
  · intro hm
    have h1 := countDelivered_broadcast_not_mem s.rooms cid x
      (persistSend s uid cid content).2 (sendUpd uid cid content s.clock conv) hm
    exact ⟨h1.1, h1.2, h1.1, h1.2⟩

/-- Witness for C2: in the fixture state, socket s2 is joined to the
room and receives the `message:new` exactly once; socket s9 is not
joined and receives none. -/
theorem broadcast_once_per_room_member_witness :
    (countDelivered exState.rooms
        (sockMessageSend exState "s1" "u1" "c00000000001" "hello").2 "s2"
        isNewMessageEvent = 1)
    ∧ (countDelivered exState.rooms
        (sockMessageSend exState "s1" "u1" "c00000000001" "hello").2 "s9"
        isNewMessageEvent = 0) :=
  ⟨((broadcast_once_per_room_member exState "s1" "u1" "c00000000001" "hello" "s2"
      exConv (by decide) (by decide) (by decide) (by decide) (by decide)).1
      (by decide)).1,
   ((broadcast_once_per_room_member exState "s1" "u1" "c00000000001" "hello" "s9"
      exConv (by decide) (by decide) (by decide) (by decide) (by decide)).2
      (by decide)).1⟩

/-- C3 as amended: a successful send (either path) sets the
conversation's `lastMessage.content` to the TRIMMED sent content —
`jsTrim content`, equal to the sent content whenever it carries no
surrounding whitespace — and strictly advances `updatedAt` (the clock
dominates every stored timestamp, which is the `hclk` hypothesis). -/
theorem send_trims_summary_and_advances_updatedAt (s : ChatState)
    (sid uid cid content : String) (ioAvail : Bool) (conv : Conversation)
    (hcid : cid ≠ "") (hct : jsTrim content ≠ "")
    (hval : isValidObjectId cid = true)
    (hfind : findConversation s cid = some conv)
    (hpart : isParticipant conv uid = true)
    (hclk : conv.updatedAt < s.clock) :
    (∃ c1, findConversation (sockMessageSend s sid uid cid content).1 cid = some c1
        ∧ c1.lastMessage = some ⟨jsTrim content, uid, s.clock⟩
        ∧ conv.updatedAt < c1.updatedAt)
    ∧ (∃ c2, findConversation (restSendMessage s ioAvail uid cid content).1 cid = some c2
        ∧ c2.lastMessage = some ⟨jsTrim content, uid, s.clock⟩
        ∧ conv.updatedAt < c2.updatedAt) := by
  have hid : (conv.id == cid) = true := by
    have h0 := hfind
    unfold findConversation at h0
    have h1 := List.find?_some h0
    simpa using h1
  have hupd : sendUpd uid cid content s.clock conv =
      { conv with
          lastMessage := some ⟨jsTrim content, uid, s.clock⟩
          updatedAt := s.clock + 1 } := by
    unfold sendUpd
    rw [if_pos hid]
  have hfindp := findConversation_persistSend s uid cid content conv hfind
  constructor
  · refine ⟨sendUpd uid cid content s.clock conv, ?_, ?_, ?_⟩
    · rw [sockMessageSend_success s sid uid cid content conv hcid hct hfind hpart]
      exact hfindp
    · rw [hupd]
    · rw [hupd]
      exact Nat.lt_succ_of_lt hclk
  · refine ⟨sendUpd uid cid content s.clock conv, ?_, ?_, ?_⟩
    · rw [restSendMessage_success s ioAvail uid cid content conv hct hval hfind hpart]
      exact hfindp
    · rw [hupd]
    · rw [hupd]
      exact Nat.lt_succ_of_lt hclk

/-- Witness for the amended C3: a concrete successful socket send in the
fixture state. -/
theorem send_trims_summary_witness :
    ∃ c1, findConversation (sockMessageSend exState "s1" "u1" "c00000000001" "hello").1
        "c00000000001" = some c1
      ∧ c1.lastMessage = some ⟨jsTrim "hello", "u1", exState.clock⟩
      ∧ exConv.updatedAt < c1.updatedAt :=
  (send_trims_summary_and_advances_updatedAt exState "s1" "u1" "c00000000001"
    "hello" true exConv (by decide) (by decide) (by decide) (by decide)
    (by decide) (by decide)).1

/-- Counterexample to C3 as stated: participant u1 successfully sends
the content " hi" (one message is created), yet the conversation's
`lastMessage.content` afterwards is the trimmed "hi", which differs from
the sent content " hi". -/
theorem send_content_counterexample :
    (sockMessageSend exState "s1" "u1" "c00000000001" " hi").1.messages.length
        = exState.messages.length + 1
    ∧ (findConversation (sockMessageSend exState "s1" "u1" "c00000000001" " hi").1
          "c00000000001").map (fun c => c.lastMessage.map (fun l => l.content))
        = some (some "hi")
    ∧ ("hi" : String) ≠ " hi" :=
  ⟨by decide, by decide, by decide⟩

/-- C10: a valid REST send by a participant with no gateway dispatch
handle registered still persists the message, still updates the
conversation summary, and still answers 201 with the created message;
only the broadcast is skipped (no events). -/
theorem rest_send_without_io_still_persists (s : ChatState)
    (uid cid content : String) (conv : Conversation)
    (hct : jsTrim content ≠ "") (hval : isValidObjectId cid = true)
    (hfind : findConversation s cid = some conv)
    (hpart : isParticipant conv uid = true) :
    (restSendMessage s false uid cid content).2.1.status = 201
      ∧ (restSendMessage s false uid cid content).2.1.message
          = some (persistSend s uid cid content).2
      ∧ (restSendMessage s false uid cid content).1.messages
          = s.messages ++ [(persistSend s uid cid content).2]
      ∧ findConversation (restSendMessage s false uid cid content).1 cid
          = some (sendUpd uid cid content s.clock conv)
      ∧ (restSendMessage s false uid cid content).2.2 = [] := by
  rw [restSendMessage_success s false uid cid content conv hct hval hfind hpart]
  exact ⟨rfl, rfl, persistSend_messages s uid cid content,
    findConversation_persistSend s uid cid content conv hfind, rfl⟩

/-- Witness for C10: concrete REST send in the fixture state with the
dispatch handle absent. -/
theorem rest_send_without_io_still_persists_witness :
    (restSendMessage exState false "u1" "c00000000001" "hello").2.1.status = 201
      ∧ (restSendMessage exState false "u1" "c00000000001" "hello").2.2 = [] :=
  ⟨(rest_send_without_io_still_persists exState "u1" "c00000000001" "hello" exConv
      (by decide) (by decide) (by decide) (by decide)).1,
   (rest_send_without_io_still_persists exState "u1" "c00000000001" "hello" exConv
      (by decide) (by decide) (by decide) (by decide)).2.2.2.2⟩


/-- Branch analysis of the socket send handler: the state is either
untouched (a guard fired) or the result of the shared persistence step. -/
theorem sockMessageSend_state_cases (s : ChatState) (sid uid cid content : String) :
    (sockMessageSend s sid uid cid content).1 = s
    ∨ (sockMessageSend s sid uid cid content).1
        = (persistSend s uid cid content).1 := by
  unfold sockMessageSend
  split
  · left; rfl
  · split
    · left; rfl
    · split
      · left; rfl
      · right; rfl

/-- Branch analysis of the REST send handler: the state is either
untouched or the result of the shared persistence step. -/
theorem restSendMessage_state_cases (s : ChatState) (ioAvail : Bool)
    (uid cid content : String) :
    (restSendMessage s ioAvail uid cid content).1 = s
    ∨ (restSendMessage s ioAvail uid cid content).1
        = (persistSend s uid cid content).1 := by
  unfold restSendMessage
  split
  · left; rfl
  · split
    · left; rfl
    · split
      · left; rfl
      · split
        · left; rfl
        · right; rfl

/-- Branch analysis of conversation creation: unchanged state, a fresh
document appended after an unsuccessful pair lookup, or a post attached
to the looked-up document. -/
theorem createConversation_state_cases (s : ChatState) (uid pid : String)
    (postId : Option String) :
    (createConversation s uid pid postId).1 = s
    ∨ ((createConversation s uid pid postId).1
        = { s with conversations := s.conversations ++ [createdConv s uid pid postId]
                   clock := s.clock + 1 }
      ∧ s.conversations.find?
          (fun c => c.participants.contains uid && c.participants.contains pid) = none)
    ∨ (∃ conv : Conversation, (createConversation s uid pid postId).1
        = { s with
              conversations := s.conversations.map
                (fun c =>
                  if c.id == conv.id then
                    { c with post := resolvePost s postId, updatedAt := s.clock }
                  else c)
              clock := s.clock + 1 }) := by
  unfold createConversation
  split
  · left; rfl
  · split
    · left; rfl
    · split
      · left; rfl
      · split
        · rename_i hnone
          right; left; exact ⟨rfl, hnone⟩
        · rename_i conv hfound
          split
          · right; right; exact ⟨conv, rfl⟩
          · left; rfl

/-- The connection prologue touches only the presence map. -/
theorem sockConnect_frame (s : ChatState) (sid uid : String) :
    (sockConnect s sid uid).1.conversations = s.conversations
      ∧ (sockConnect s sid uid).1.messages = s.messages
      ∧ (sockConnect s sid uid).1.clock = s.clock := by
  unfold sockConnect
  by_cases h : uid = "" <;> simp [h]

/-- Joining a room touches only room membership. -/
theorem sockJoin_frame (s : ChatState) (sid cid : String) :
    (sockJoin s sid cid).conversations = s.conversations
      ∧ (sockJoin s sid cid).messages = s.messages
      ∧ (sockJoin s sid cid).clock = s.clock := by
  unfold sockJoin
  split
  · exact ⟨rfl, rfl, rfl⟩
  · split <;> exact ⟨rfl, rfl, rfl⟩

/-- Leaving a room touches only room membership. -/
theorem sockLeave_frame (s : ChatState) (sid cid : String) :
    (sockLeave s sid cid).conversations = s.conversations
      ∧ (sockLeave s sid cid).messages = s.messages
      ∧ (sockLeave s sid cid).clock = s.clock := by
  unfold sockLeave
  split <;> exact ⟨rfl, rfl, rfl⟩

/-- Disconnect touches only presence and room membership. -/
theorem sockDisconnect_frame (s : ChatState) (sid uid : String) :
    (sockDisconnect s sid uid).conversations = s.conversations
      ∧ (sockDisconnect s sid uid).messages = s.messages
      ∧ (sockDisconnect s sid uid).clock = s.clock :=
  ⟨rfl, rfl, rfl⟩

/-- `ClockSound` transfers along store-preserving, clock-non-decreasing
state changes. -/
theorem clockSound_mono (s s' : ChatState) (hm : s'.messages = s.messages)
    (hc : s'.conversations = s.conversations) (hk : s.clock ≤ s'.clock)
    (h : ClockSound s) : ClockSound s' := by
  obtain ⟨h1, h2, h3⟩ := h
  refine ⟨hm ▸ h1, ?_, ?_⟩
  · intro m hm'
    rw [hm] at hm'
    exact lt_of_lt_of_le (h2 m hm') hk
  · intro c hc'
    rw [hc] at hc'
    exact lt_of_lt_of_le (h3 c hc') hk

/-- The shared persistence step preserves `ClockSound`. -/
theorem clockSound_persistSend (s : ChatState) (uid cid content : String)
    (h : ClockSound s) : ClockSound (persistSend s uid cid content).1 := by
  obtain ⟨h1, h2, h3⟩ := h
  refine ⟨?_, ?_, ?_⟩
  · rw [persistSend_messages, persistSend_msg]
    rw [List.pairwise_append]
    refine ⟨h1, by simp, ?_⟩
    intro a ha b hb
    simp only [List.mem_singleton] at hb
    subst hb
    exact h2 a ha
  · intro m hm
    rw [persistSend_messages] at hm
    rw [persistSend_clock]
    rcases List.mem_append.mp hm with h' | h'
    · exact lt_trans (h2 m h') (by omega)
    · simp only [List.mem_singleton] at h'
      subst h'
      exact show s.clock < s.clock + 2 by omega
  · intro c hc
    rw [persistSend_conversations] at hc
    rw [persistSend_clock]
    rcases List.mem_map.mp hc with ⟨c0, hc0, rfl⟩
    unfold sendUpd
    split
    · exact show s.clock + 1 < s.clock + 2 by omega
    · exact lt_trans (h3 c0 hc0) (by omega)

/-- Conversation creation preserves `ClockSound`. -/
theorem clockSound_createConversation (s : ChatState) (uid pid : String)
    (postId : Option String) (h : ClockSound s) :
    ClockSound (createConversation s uid pid postId).1 := by
  rcases createConversation_state_cases s uid pid postId with he | ⟨he, _⟩ | ⟨conv, he⟩
  · rw [he]; exact h
  · rw [he]
    obtain ⟨h1, h2, h3⟩ := h
    refine ⟨h1, ?_, ?_⟩
    · intro m hm
      exact lt_trans (h2 m hm) (Nat.lt_succ_self _)
    · intro c hc
      rcases List.mem_append.mp hc with h' | h'
      · exact lt_trans (h3 c h') (Nat.lt_succ_self _)
      · simp only [List.mem_singleton] at h'
        subst h'
        exact show s.clock < s.clock + 1 by omega
  · rw [he]
    obtain ⟨h1, h2, h3⟩ := h
    refine ⟨h1, ?_, ?_⟩
    · intro m hm
      exact lt_trans (h2 m hm) (Nat.lt_succ_self _)
    · intro c hc
      rcases List.mem_map.mp hc with ⟨c0, hc0, rfl⟩
      split
      · exact show s.clock < s.clock + 1 by omega
      · exact lt_trans (h3 c0 hc0) (Nat.lt_succ_self _)

/-- Every operation preserves `ClockSound`. -/
theorem clockSound_applyOp (s : ChatState) (op : Op) (h : ClockSound s) :
    ClockSound (applyOp s op) := by
  cases op with
  | connect sid uid =>
      have hf := sockConnect_frame s sid uid
      exact clockSound_mono s _ hf.2.1 hf.1 (le_of_eq hf.2.2.symm) h
  | join sid cid =>
      have hf := sockJoin_frame s sid cid
      exact clockSound_mono s _ hf.2.1 hf.1 (le_of_eq hf.2.2.symm) h
  | leave sid cid =>
      have hf := sockLeave_frame s sid cid
      exact clockSound_mono s _ hf.2.1 hf.1 (le_of_eq hf.2.2.symm) h
  | disconnect sid uid =>
      have hf := sockDisconnect_frame s sid uid
      exact clockSound_mono s _ hf.2.1 hf.1 (le_of_eq hf.2.2.symm) h
  | sockSend sid uid cid content =>
      rcases sockMessageSend_state_cases s sid uid cid content with he | he
      · show ClockSound (sockMessageSend s sid uid cid content).1
        rw [he]; exact h
      · show ClockSound (sockMessageSend s sid uid cid content).1
        rw [he]; exact clockSound_persistSend s uid cid content h
  | restSend ioAvail uid cid content =>
      rcases restSendMessage_state_cases s ioAvail uid cid content with he | he
      · show ClockSound (restSendMessage s ioAvail uid cid content).1
        rw [he]; exact h
      · show ClockSound (restSendMessage s ioAvail uid cid content).1
        rw [he]; exact clockSound_persistSend s uid cid content h
  | create uid pid postId =>
      exact clockSound_createConversation s uid pid postId h

/-- Every reachable state is `ClockSound`. -/
theorem clockSound_reach (u p : List String) (ops : List Op) :
    ClockSound (reach u p ops) := by
  have hinit : ClockSound (initState u p) := by
    refine ⟨List.Pairwise.nil, ?_, ?_⟩ <;> simp [initState]
  unfold reach
  have hstep : ∀ (l : List Op) (s : ChatState), ClockSound s →
      ClockSound (l.foldl applyOp s) := by
    intro l
    induction l with
    | nil => intro s hs; exact hs
    | cons op rest ih =>
        intro s hs
        exact ih _ (clockSound_applyOp s op hs)
  exact hstep ops _ hinit


/-- `PairUnique` only looks at the conversation collection. -/
theorem pairUnique_congr (s s' : ChatState)
    (hc : s'.conversations = s.conversations) (h : PairUnique s) :
    PairUnique s' := by
  unfold PairUnique at *
  rw [hc]
  exact h

/-- Mapping a participants-preserving update across the collection keeps
the pairwise distinctness of participant sets. -/
theorem pairUnique_map (s : ChatState) (f : Conversation → Conversation)
    (hf : ∀ c, (f c).participants = c.participants) (h : PairUnique s) :
    (s.conversations.map f).Pairwise
      (fun c1 c2 => ¬ SameParticipantSet c1.participants c2.participants) := by
  unfold PairUnique at h
  apply List.Pairwise.map f _ h
  intro a b hab
  rw [hf a, hf b]
  exact hab

/-- The shared persistence step preserves `PairUnique`. -/
theorem pairUnique_persistSend (s : ChatState) (uid cid content : String)
    (h : PairUnique s) : PairUnique (persistSend s uid cid content).1 := by
  unfold PairUnique
  rw [persistSend_conversations]
  apply pairUnique_map s _ _ h
  intro c
  unfold sendUpd
  split <;> rfl

/-- Conversation creation preserves `PairUnique`: the lookup-before-create
guarantees the appended document's pair is new, and the attach branch
does not touch participants. -/
theorem pairUnique_createConversation (s : ChatState) (uid pid : String)
    (postId : Option String) (h : PairUnique s) :
    PairUnique (createConversation s uid pid postId).1 := by
  rcases createConversation_state_cases s uid pid postId with he | ⟨he, hnone⟩ | ⟨conv, he⟩
  · rw [he]; exact h
  · rw [he]
    unfold PairUnique at *
    show (s.conversations ++ [createdConv s uid pid postId]).Pairwise _
    rw [List.pairwise_append]
    refine ⟨h, List.pairwise_singleton _ _, ?_⟩
    intro a ha b hb
    simp only [List.mem_singleton] at hb
    subst hb
    intro hsame
    have hnot := List.find?_eq_none.mp hnone a ha
    apply hnot
    have huid : uid ∈ a.participants := by
      apply (hsame uid).mpr
      show uid ∈ (createdConv s uid pid postId).participants
      unfold createdConv
      simp
    have hpid : pid ∈ a.participants := by
      apply (hsame pid).mpr
      show pid ∈ (createdConv s uid pid postId).participants
      unfold createdConv
      simp
    simp [huid, hpid]
  · rw [he]
    unfold PairUnique
    show (s.conversations.map _).Pairwise _
    apply pairUnique_map s _ _ h
    intro c
    split <;> rfl

/-- Every operation preserves `PairUnique`. -/
theorem pairUnique_applyOp (s : ChatState) (op : Op) (h : PairUnique s) :
    PairUnique (applyOp s op) := by
  cases op with
  | connect sid uid => exact pairUnique_congr s _ (sockConnect_frame s sid uid).1 h
  | join sid cid => exact pairUnique_congr s _ (sockJoin_frame s sid cid).1 h
  | leave sid cid => exact pairUnique_congr s _ (sockLeave_frame s sid cid).1 h
  | disconnect sid uid =>
      exact pairUnique_congr s _ (sockDisconnect_frame s sid uid).1 h
  | sockSend sid uid cid content =>
      rcases sockMessageSend_state_cases s sid uid cid content with he | he
      · show PairUnique (sockMessageSend s sid uid cid content).1
        rw [he]; exact h
      · show PairUnique (sockMessageSend s sid uid cid content).1
        rw [he]; exact pairUnique_persistSend s uid cid content h
  | restSend ioAvail uid cid content =>
      rcases restSendMessage_state_cases s ioAvail uid cid content with he | he
      · show PairUnique (restSendMessage s ioAvail uid cid content).1
        rw [he]; exact h
      · show PairUnique (restSendMessage s ioAvail uid cid content).1
        rw [he]; exact pairUnique_persistSend s uid cid content h
  | create uid pid postId => exact pairUnique_createConversation s uid pid postId h

/-- Every reachable state satisfies `PairUnique`. -/
theorem pairUnique_reach (u p : List String) (ops : List Op) :
    PairUnique (reach u p ops) := by
  have hinit : PairUnique (initState u p) := List.Pairwise.nil
  unfold reach
  have hstep : ∀ (l : List Op) (s : ChatState), PairUnique s →
      PairUnique (l.foldl applyOp s) := by
    intro l
    induction l with
    | nil => intro s hs; exact hs
    | cons op rest ih =>
        intro s hs
        exact ih _ (pairUnique_applyOp s op hs)
  exact hstep ops _ hinit

/-- Membership in a stable insertion. -/
theorem mem_insertByCreated (m y : Message) (l : List Message) :
    y ∈ insertByCreated m l ↔ y = m ∨ y ∈ l := by
  induction l with
  | nil => simp [insertByCreated]
  | cons x xs ih =>
      unfold insertByCreated
      split
      · simp [List.mem_cons]
      · simp [List.mem_cons, ih]
        tauto

/-- Stable insertion into a list sorted by `createdAt` keeps it sorted. -/
theorem insertByCreated_pairwise (m : Message) (l : List Message)
    (h : l.Pairwise (fun a b => a.createdAt ≤ b.createdAt)) :
    (insertByCreated m l).Pairwise (fun a b => a.createdAt ≤ b.createdAt) := by
  induction l with
  | nil => simp [insertByCreated]
  | cons x xs ih =>
      unfold insertByCreated
      split
      · rename_i hle
        apply List.pairwise_cons.mpr
        refine ⟨?_, h⟩
        intro y hy
        rcases List.mem_cons.mp hy with rfl | hy'
        · exact hle
        · exact le_trans hle ((List.pairwise_cons.mp h).1 y hy')
      · rename_i hgt
        have hxm : x.createdAt ≤ m.createdAt := by
          omega
        apply List.pairwise_cons.mpr
        constructor
        · intro y hy
          rcases (mem_insertByCreated m y xs).mp hy with rfl | hy'
          · exact hxm
          · exact (List.pairwise_cons.mp h).1 y hy'
        · exact ih (List.pairwise_cons.mp h).2

/-- The query sort returns a list ascending by `createdAt`. -/
theorem sortByCreated_pairwise (l : List Message) :
    (sortByCreated l).Pairwise (fun a b => a.createdAt ≤ b.createdAt) := by
  induction l with
  | nil => exact List.Pairwise.nil
  | cons m xs ih => exact insertByCreated_pairwise m (sortByCreated xs) ih

/-- Inserting below every element is a cons. -/
theorem insertByCreated_eq_cons (m : Message) (l : List Message)
    (h : ∀ y ∈ l, m.createdAt ≤ y.createdAt) :
    insertByCreated m l = m :: l := by
  cases l with
  | nil => rfl
  | cons x xs =>
      unfold insertByCreated
      rw [if_pos (h x (List.mem_cons_self x xs))]

/-- Sorting an already-sorted list is the identity (stability on the
store's insertion order). -/
theorem sortByCreated_eq_self (l : List Message)
    (h : l.Pairwise (fun a b => a.createdAt ≤ b.createdAt)) :
    sortByCreated l = l := by
  induction l with
  | nil => rfl
  | cons m xs ih =>
      unfold sortByCreated
      rw [ih (List.pairwise_cons.mp h).2,
          insertByCreated_eq_cons m xs (List.pairwise_cons.mp h).1]

/-- Reduction of the GET history handler on its success path. -/
theorem restGetMessages_success (s : ChatState) (uid cid : String)
    (conv : Conversation) (hval : isValidObjectId cid = true)
    (hfind : findConversation s cid = some conv)
    (hpart : isParticipant conv uid = true) :
    restGetMessages s uid cid =
      ⟨200, some (sortByCreated
        (s.messages.filter (fun m => m.conversation == cid)))⟩ := by
  unfold restGetMessages
  rw [hval, hfind]
  simp [hpart]


/-- C5: on any reachable store state, the message-history query for a
conversation returns exactly that conversation's messages in insertion
(send) order — so N sequential sends are returned in send order — and the
returned sequence is ascending in `createdAt` (each persisted message
gets a strictly later tick, making the `createdAt` order total and the
stable sort the identity on it). -/
theorem history_ascending_in_send_order (u p : List String) (ops : List Op)
    (uid cid : String) (conv : Conversation)
    (hval : isValidObjectId cid = true)
    (hfind : findConversation (reach u p ops) cid = some conv)
    (hpart : isParticipant conv uid = true) :
    restGetMessages (reach u p ops) uid cid =
      ⟨200, some ((reach u p ops).messages.filter (fun m => m.conversation == cid))⟩
    ∧ ((reach u p ops).messages.filter (fun m => m.conversation == cid)).Pairwise
        (fun a b => a.createdAt ≤ b.createdAt) := by
  have hcs := clockSound_reach u p ops
  have hsorted : ((reach u p ops).messages.filter
      (fun m => m.conversation == cid)).Pairwise
      (fun a b => a.createdAt ≤ b.createdAt) :=
    List.Pairwise.imp (fun hab => le_of_lt hab)
      (List.Pairwise.filter _ hcs.1)
  refine ⟨?_, hsorted⟩
  rw [restGetMessages_success (reach u p ops) uid cid conv hval hfind hpart,
      sortByCreated_eq_self _ hsorted]

/-- Witness for C5: after creating a conversation and sending two
messages through the REST path, the history query returns the state's
two messages in send order. -/
theorem history_ascending_in_send_order_witness :
    restGetMessages (reach exUsers [] exOps) "u1" "cv0000000000" =
      ⟨200, some ((reach exUsers [] exOps).messages.filter
        (fun m => m.conversation == "cv0000000000"))⟩ :=
  (history_ascending_in_send_order exUsers [] exOps "u1" "cv0000000000" exConv2
    (by decide) (by decide) (by decide)).1

/-- C8 as amended: for an authenticated GET of a conversation's messages
with a WELL-FORMED conversation id, an unknown id yields 404, a known
conversation with a non-participant caller yields 403, and a participant
caller receives the messages ordered ascending by `createdAt`.  (A
malformed id short-circuits to 400 before the conversation lookup — see
the counterexample.) -/
theorem get_messages_statuses (s : ChatState) (uid cid : String)
    (hval : isValidObjectId cid = true) :
    (findConversation s cid = none → restGetMessages s uid cid = ⟨404, none⟩)
    ∧ (∀ conv : Conversation, findConversation s cid = some conv →
        isParticipant conv uid = false →
        restGetMessages s uid cid = ⟨403, none⟩)
    ∧ (∀ conv : Conversation, findConversation s cid = some conv →
        isParticipant conv uid = true →
        restGetMessages s uid cid =
          ⟨200, some (sortByCreated
            (s.messages.filter (fun m => m.conversation == cid)))⟩
        ∧ (sortByCreated
            (s.messages.filter (fun m => m.conversation == cid))).Pairwise
            (fun a b => a.createdAt ≤ b.createdAt)) := by
  refine ⟨?_, ?_, ?_⟩
  · intro hnone
    unfold restGetMessages
    rw [hval, hnone]
    rfl
  · intro conv hfind hnp
    unfold restGetMessages
    rw [hval, hfind]
    simp [hnp]
  · intro conv hfind hp
    exact ⟨restGetMessages_success s uid cid conv hval hfind hp,
      sortByCreated_pairwise _⟩

/-- Witness for the amended C8: non-participant u3 gets 403 on the
fixture conversation; the well-formed but unknown id gets 404. -/
theorem get_messages_statuses_witness :
    restGetMessages exState "u3" "c00000000001" = ⟨403, none⟩
      ∧ restGetMessages exState "u1" "c00000000009" = ⟨404, none⟩ :=
  ⟨(get_messages_statuses exState "u3" "c00000000001" (by decide)).2.1 exConv
      (by decide) (by decide),
   (get_messages_statuses exState "u1" "c00000000009" (by decide)).1 (by decide)⟩

/-- Counterexample to C8 as stated: the id "abc" does not resolve to any
existing conversation — it is unknown in the claim's sense — yet the
response status is 400 (the malformed-id guard), not 404. -/
theorem get_messages_unknown_id_counterexample :
    findConversation exState "abc" = none
      ∧ restGetMessages exState "u1" "abc" = ⟨400, none⟩
      ∧ (400 : Nat) ≠ 404 :=
  ⟨by decide, by decide, by decide⟩

/-- A well-formed ObjectId is never the empty string. -/
theorem isValidObjectId_ne_empty (s : String) (h : isValidObjectId s = true) :
    (s == "") = false := by
  by_cases he : s = ""
  · subst he
    simp [isValidObjectId] at h
  · simpa using he

/-- Reduction of conversation creation when the pair lookup misses: a
fresh document is appended and returned. -/
theorem createConversation_creates (s : ChatState) (A B : String)
    (p1 : Option String)
    (hvB : isValidObjectId B = true) (hne : (B == A) = false)
    (huB : s.users.contains B = true)
    (hnone : s.conversations.find?
      (fun c => c.participants.contains A && c.participants.contains B) = none) :
    createConversation s A B p1 =
      ({ s with conversations := s.conversations ++ [createdConv s A B p1]
                clock := s.clock + 1 },
       ⟨200, some (createdConv s A B p1)⟩) := by
  have hB0 : (B == "") = false := isValidObjectId_ne_empty B hvB
  unfold createConversation
  rw [hB0, hvB, hne, huB, hnone]
  rfl

/-- Reduction of conversation creation when the pair lookup hits: the
response carries the found document (possibly with a post attached) and
the collection length is unchanged. -/
theorem createConversation_found (s : ChatState) (uid pid : String)
    (postId : Option String) (conv : Conversation)
    (hv : isValidObjectId pid = true) (hne : (pid == uid) = false)
    (hu : s.users.contains pid = true)
    (hfound : s.conversations.find?
      (fun c => c.participants.contains uid && c.participants.contains pid)
        = some conv) :
    ((createConversation s uid pid postId).2.conversation).map (fun c => c.id)
        = some conv.id
      ∧ (createConversation s uid pid postId).1.conversations.length
          = s.conversations.length := by
  have h0 : (pid == "") = false := isValidObjectId_ne_empty pid hv
  unfold createConversation
  rw [h0, hv, hne, hu, hfound]
  by_cases h : ((resolvePost s postId).isSome && conv.post == none) = true
  · exact ⟨by simp [h], by simp [h]⟩
  · exact ⟨by simp [h], by simp [h]⟩

/-- C4: (a) every reachable state holds at most one conversation per
unordered participant pair (no two stored conversations have the same
participant set), and (b) for distinct valid users A and B with no
existing conversation for the pair, the first creation call appends one
document and returns it, and a second call — by either participant, with
the pair in either order — returns that same conversation (same document
id) and creates nothing new. -/
theorem conversation_unique_per_pair :
    (∀ (u p : List String) (ops : List Op), PairUnique (reach u p ops))
    ∧ (∀ (s : ChatState) (A B : String) (p1 p2 : Option String),
        isValidObjectId A = true → isValidObjectId B = true → A ≠ B →
        A ∈ s.users → B ∈ s.users →
        (∀ c ∈ s.conversations, ¬(A ∈ c.participants ∧ B ∈ c.participants)) →
        ∃ c0 : Conversation,
          (createConversation s A B p1).2.conversation = some c0
          ∧ (createConversation s A B p1).1.conversations.length
              = s.conversations.length + 1
          ∧ ((createConversation (createConversation s A B p1).1 A B p2).2.conversation).map
                (fun c => c.id) = some c0.id
          ∧ (createConversation (createConversation s A B p1).1 A B p2).1.conversations.length
              = (createConversation s A B p1).1.conversations.length
          ∧ ((createConversation (createConversation s A B p1).1 B A p2).2.conversation).map
                (fun c => c.id) = some c0.id
          ∧ (createConversation (createConversation s A B p1).1 B A p2).1.conversations.length
              = (createConversation s A B p1).1.conversations.length) := by
  constructor
  · exact pairUnique_reach
  · intro s A B p1 p2 hvA hvB hne huA huB hnone
    have hnone1 : s.conversations.find?
        (fun c => c.participants.contains A && c.participants.contains B) = none := by
      apply List.find?_eq_none.mpr
      intro c hc hcontra
      simp only [Bool.and_eq_true] at hcontra
      exact hnone c hc ⟨by simpa using hcontra.1, by simpa using hcontra.2⟩
    have hnone2 : s.conversations.find?
        (fun c => c.participants.contains B && c.participants.contains A) = none := by
      apply List.find?_eq_none.mpr
      intro c hc hcontra
      simp only [Bool.and_eq_true] at hcontra
      exact hnone c hc ⟨by simpa using hcontra.2, by simpa using hcontra.1⟩
    have hneBA : (B == A) = false := by simpa using (Ne.symm hne)
    have hneAB : (A == B) = false := by simpa using hne
    have huBc : s.users.contains B = true := by simpa using huB
    have huAc : s.users.contains A = true := by simpa using huA
    have hcr := createConversation_creates s A B p1 hvB hneBA huBc hnone1
    have hfound1 : ((createConversation s A B p1).1).conversations.find?
        (fun c => c.participants.contains A && c.participants.contains B)
        = some (createdConv s A B p1) := by
      rw [hcr]
      show (s.conversations ++ [createdConv s A B p1]).find? _ = _
      rw [List.find?_append, hnone1]
      simp [createdConv]
    have hfound2 : ((createConversation s A B p1).1).conversations.find?
        (fun c => c.participants.contains B && c.participants.contains A)
        = some (createdConv s A B p1) := by
      rw [hcr]
      show (s.conversations ++ [createdConv s A B p1]).find? _ = _
      rw [List.find?_append, hnone2]
      simp [createdConv]
    have huB1 : ((createConversation s A B p1).1).users.contains B = true := by
      rw [hcr]; exact huBc
    have huA1 : ((createConversation s A B p1).1).users.contains A = true := by
      rw [hcr]; exact huAc
    have hsecA := createConversation_found (createConversation s A B p1).1 A B p2
      (createdConv s A B p1) hvB hneBA huB1 hfound1
    have hsecB := createConversation_found (createConversation s A B p1).1 B A p2
      (createdConv s A B p1) hvA hneAB huA1 hfound2
    refine ⟨createdConv s A B p1, ?_, ?_, hsecA.1, hsecA.2, hsecB.1, hsecB.2⟩
    · rw [hcr]
    · rw [hcr]
      simp

/-- Witness for C4: the two fixture users in a boot state; the first
call creates the conversation and repeat calls in both orders return it. -/
theorem conversation_unique_per_pair_witness :
    ∃ c0 : Conversation,
      (createConversation exInit exUserA exUserB none).2.conversation = some c0
      ∧ (createConversation exInit exUserA exUserB none).1.conversations.length
          = exInit.conversations.length + 1
      ∧ ((createConversation (createConversation exInit exUserA exUserB none).1
            exUserA exUserB none).2.conversation).map (fun c => c.id) = some c0.id
      ∧ (createConversation (createConversation exInit exUserA exUserB none).1
            exUserA exUserB none).1.conversations.length
          = (createConversation exInit exUserA exUserB none).1.conversations.length
      ∧ ((createConversation (createConversation exInit exUserA exUserB none).1
            exUserB exUserA none).2.conversation).map (fun c => c.id) = some c0.id
      ∧ (createConversation (createConversation exInit exUserA exUserB none).1
            exUserB exUserA none).1.conversations.length
          = (createConversation exInit exUserA exUserB none).1.conversations.length :=
  conversation_unique_per_pair.2 exInit exUserA exUserB none none
    (by decide) (by decide) (by decide) (by decide) (by decide) (by decide)

end Chat
